import Mathlib

/-!
Verification of the finderly-camera capture/analysis core.

A shallow embedding of the core logic of the finderly-camera repository:
the permission gate (`src/hooks/usePermissions.ts`), the capture screen
(`CameraScreen`), the vision service (`visionService.ts`, both the
`VisionService.analyzeImage` class method and the standalone
`recognizeObjectsFromImage` helper), and the result-display branch of the
`ObjectRecognition` component.

External collaborators (the HTTP transport, the platform permission API and
the camera hardware) are modelled as explicit parameters: a transport is a
function from the request (url, body) to an outcome, and hardware calls are
passed in as `Except`-valued outcomes.  Console logging is modelled as an
explicit list of log calls, each call being the list of values it was given
(a `console.error(a, b)` call logs the two values `a` and `b` separately).
-/

namespace Finderly

/-! ## Remote response data model

The Google Vision reply is heterogeneous JSON: `responses` may be absent,
and inside `responses[0]` each annotation category is optional.  Optionality
is modelled with `Option`; a numeric score is carried through untouched by
the code, so it is modelled as `Int`.  Field names are shortened from the
JSON names (`labelAnnotations` ↦ `labelAnns`, `localizedObjectAnnotations`
↦ `objectAnns`, `textAnnotations` ↦ `textAnns`). -/

/-- One element of `labelAnnotations`: `description` and `score`. -/
structure LabelAnn where
  descr : String
  score : Int
  deriving DecidableEq

/-- One element of `localizedObjectAnnotations`: `name`. -/
structure ObjectAnn where
  name : String
  deriving DecidableEq

/-- One element of `textAnnotations`: `description`. -/
structure TextAnn where
  descr : String
  deriving DecidableEq

/-- The payload of one entry of `responses`; every category is optional. -/
structure AnnotateResult where
  labelAnns : Option (List LabelAnn)
  objectAnns : Option (List ObjectAnn)
  textAnns : Option (List TextAnn)
  deriving DecidableEq

/-- Shape of `response.data`: the `responses` array itself may be absent. -/
structure RemoteData where
  responses : Option (List AnnotateResult)
  deriving DecidableEq

/-- The normalized result shape produced by `VisionService.analyzeImage`
(interface `VisionResponse` in `visionService.ts`). -/
structure VisionResponse where
  labels : List String
  confidence : List Int
  objects : List String
  text : Option String
  deriving DecidableEq

/-- The result shape of the standalone `recognizeObjectsFromImage`. -/
structure ObjLabels where
  objects : List String
  labels : List String
  deriving DecidableEq

/-- A failure value thrown by the HTTP transport (axios).  Its `message` is
whatever rendering of the failure the transport produces; the code under
verification treats it as an opaque value that it logs verbatim. -/
structure TransportFailure where
  message : String
  deriving DecidableEq

/-- Outcome of one `axios.post` call: a thrown failure or delivered data. -/
inductive HttpOutcome
  | fail (e : TransportFailure)
  | ok (data : RemoteData)
  deriving DecidableEq

/-- A transport: maps the request url and body to an outcome. -/
def Transport := String → String → HttpOutcome

/-! ## Vision service (`visionService.ts`) -/

/-- Constant `VISION_CONFIG.GOOGLE_CLOUD.BASE_URL` from `src/config/vision.ts`. -/
def baseUrl : String := "https://vision.googleapis.com/v1/images:annotate"

/-- The request url built by both service functions: the credential is
embedded as a query-string parameter. -/
def visionUrl (key : String) : String := baseUrl ++ "?key=" ++ key

/-- Is `c` one of `a`–`z`?  (the regex character class `[a-z]`). -/
def isLowerAlpha (c : Char) : Bool := 'a' ≤ c && c ≤ 'z'

/-- Consume an exact literal at the head of `s`, returning the remainder;
`none` when the head differs.  Models the anchored literal pieces of the
regex `^data:image\/[a-z]+;base64,`. -/
def dropLit : List Char → List Char → Option (List Char)
  | [], rest => some rest
  | _ :: _, [] => none
  | p :: ps, c :: cs => if c = p then dropLit ps cs else none

/-- Matcher for the regex `^data:image\/[a-z]+;base64,` of
`VisionService.analyzeImage`: on a match, return the `[a-z]+` subtype and
the remainder after the matched head.  Greedy `[a-z]+` is `takeWhile`
because `;` is not in `[a-z]`, so no backtracking position can succeed. -/
def splitImageDataUri (s : List Char) : Option (List Char × List Char) :=
  match dropLit "data:image/".data s with
  | none => none
  | some rest =>
    let sub := rest.takeWhile isLowerAlpha
    let rest2 := rest.dropWhile isLowerAlpha
    if sub.isEmpty then none
    else
      match dropLit ";base64,".data rest2 with
      | none => none
      | some payload => some (sub, payload)

/-- Models `imageBase64.replace(/^data:image\/[a-z]+;base64,/, '')` — the data-URI
head is removed when the regex matches, otherwise the string is returned
unchanged (the regex is anchored, so at most one removal happens). -/
def stripImageHead (s : String) : String :=
  match splitImageDataUri s.data with
  | some (_, payload) => String.mk payload
  | none => s

/-- Models `xs?.map f || []` — JavaScript optional chaining with empty-array
default, used for every annotation category. -/
def jsMapOr {α β : Type} (f : α → β) : Option (List α) → List β
  | some xs => xs.map f
  | none => []

/-- The model's stand-in for the message of the `TypeError` raised by
JavaScript when `responses[0]` (or a field of it) is read off `undefined`. -/
def jsUndefinedFieldMsg : String := "TypeError: Cannot read properties of undefined"

/-- Lines 122–127 of `visionService.ts`: map `responses[0]` to the
canonical `VisionResponse`, with `|| []` defaults per category and
`textAnnotations?.[0]?.description` for the text field. -/
def normalizeFirst (r : AnnotateResult) : VisionResponse :=
  { labels := jsMapOr LabelAnn.descr r.labelAnns
    confidence := jsMapOr LabelAnn.score r.labelAnns
    objects := jsMapOr ObjectAnn.name r.objectAnns
    text := (r.textAnns.bind List.head?).map TextAnn.descr }

/-- The observable run of one service call: the requests it issued (url and
body pairs), the console calls it made, and its returned/thrown result
(`Except.error m` models `throw new Error(m)`). -/
structure RunResult (α : Type) where
  requests : List (String × String)
  logs : List (List String)
  result : Except String α

/-- Method `VisionService.analyzeImage`: strips the data-URI head, posts the body
to `visionUrl`, and normalizes `response.data.responses[0]`.  Reading
`responses[0]` without optional chaining throws a `TypeError` when
`responses` is absent or empty, landing in the `catch` block, which logs
`console.error('Vision API Error:', error)` and throws
`new Error('Failed to analyze image')`.  A transport failure lands in the
same `catch` block. -/
def analyzeImage (key imageBase64 : String) (t : Transport) : RunResult VisionResponse :=
  let base64Image := stripImageHead imageBase64
  let url := visionUrl key
  match t url base64Image with
  | .fail e =>
      { requests := [(url, base64Image)]
        logs := [["Vision API Error:", e.message]]
        result := .error "Failed to analyze image" }
  | .ok d =>
      match d.responses.bind List.head? with
      | none =>
          { requests := [(url, base64Image)]
            logs := [["Vision API Error:", jsUndefinedFieldMsg]]
            result := .error "Failed to analyze image" }
      | some r =>
          { requests := [(url, base64Image)]
            logs := []
            result := .ok (normalizeFirst r) }

/-- The standalone `recognizeObjectsFromImage`: posts the body unmodified,
reads `responses?.[0]` with optional chaining (so a malformed schema never
throws), prefers objects over labels, and on a thrown transport failure
logs `console.error('Vision API error:', error)` and returns the empty
result instead of rethrowing. -/
def recognizeObjectsFromImage (key imageBase64 : String) (t : Transport) :
    RunResult ObjLabels :=
  let url := visionUrl key
  match t url imageBase64 with
  | .fail e =>
      { requests := [(url, imageBase64)]
        logs := [["Vision API error:", e.message]]
        result := .ok { objects := [], labels := [] } }
  | .ok d =>
      let first := d.responses.bind List.head?
      let objects := jsMapOr ObjectAnn.name (first.bind AnnotateResult.objectAnns)
      let labels := jsMapOr LabelAnn.descr (first.bind AnnotateResult.labelAnns)
      if 0 < objects.length then
        { requests := [(url, imageBase64)], logs := [],
          result := .ok { objects := objects, labels := [] } }
      else
        { requests := [(url, imageBase64)], logs := [],
          result := .ok { objects := [], labels := labels } }

/-! ## Result display (`src/components/ObjectRecognition.tsx`) -/

/-- The reconciliation mode vocabulary of the specification. -/
inductive DisplayMode
  | objects | labels | empty
  deriving DecidableEq

/-- The specification's `DisplayResult`: a mode and the displayed items. -/
structure DisplayResult where
  mode : DisplayMode
  items : List String
  deriving DecidableEq

/-- What the results branch of `ObjectRecognition` (lines 160–191) puts on
screen: the bullet items rendered, whether the "Could not recognize object"
message is rendered, and whether the labels section is rendered. -/
structure RenderedView where
  shownItems : List String
  noObjectsMsgShown : Bool
  labelsSectionShown : Bool
  deriving DecidableEq

/-- Lines 160–191 of `ObjectRecognition.tsx`: if `results.objects` is
non-empty, render the objects as bullet items; otherwise render the
"Could not recognize object" message and, when `results.labels` is
non-empty, the labels section with the labels as bullet items. -/
def objectRecognitionRender (r : VisionResponse) : RenderedView :=
  if !r.objects.isEmpty then
    { shownItems := r.objects, noObjectsMsgShown := false, labelsSectionShown := false }
  else
    { shownItems := r.labels, noObjectsMsgShown := true,
      labelsSectionShown := !r.labels.isEmpty }

/-- Modelled from the spec (§4.5 ResultReconciler), for comparison with
`objectRecognitionRender`: if `objects` is non-empty return
`{mode: objects, items: objects}`, else if `labels` is non-empty return
`{mode: labels, items: labels}`, else `{mode: empty, items: []}`. -/
def reconcileSpec (r : VisionResponse) : DisplayResult :=
  if !r.objects.isEmpty then { mode := .objects, items := r.objects }
  else if !r.labels.isEmpty then { mode := .labels, items := r.labels }
  else { mode := .empty, items := [] }

/-! ## Permission gate (`src/hooks/usePermissions.ts`) -/

/-- Permission status type `CameraPermissionStatus` of react-native-vision-camera. -/
inductive CamPermStatus
  | notDetermined | denied | restricted | granted
  deriving DecidableEq

/-- A failure thrown by the platform permission API. -/
structure PermFailure where
  message : String
  deriving DecidableEq

/-- The `request` function of `usePermissions`: awaits the platform's
`Camera.requestCameraPermission()` (passed in as its outcome) and stores
the resulting status; on a throw it logs
`console.error('Failed to request camera permission:', error)` and stores
`denied`.  The returned pair is (new stored status, console calls); the
function itself never throws (its result type carries no `Except`). -/
def usePermissionsRequest (platform : Except PermFailure CamPermStatus) :
    CamPermStatus × List (List String) :=
  match platform with
  | .ok s => (s, [])
  | .error e => (.denied, [["Failed to request camera permission:", e.message]])

/-! ## Capture screen (`CameraScreen`) -/

/-- A camera device handle as resolved by `useCameraDevice`. -/
structure CameraDevice where
  id : Nat
  deriving DecidableEq

/-- Which of the three mutually exclusive screens `CameraScreen` renders:
the permission-request (gated) screen, the "No camera device available."
screen, or the live capture screen carrying the shutter. -/
inductive CameraView
  | permissionGate
  | noDevice
  | capture (dev : CameraDevice)
  deriving DecidableEq

/-- The early-return structure of `CameraScreen`: if
`cameraStatus !== "granted"` render the permission screen; else if no
device resolved render the unavailable screen; else render the live camera
with the shutter. -/
def cameraScreen (status : CamPermStatus) (device : Option CameraDevice) : CameraView :=
  if status ≠ .granted then .permissionGate
  else
    match device with
    | none => .noDevice
    | some dev => .capture dev

/-- Availability of the shutter: `handleTakePhoto` (and the `ShutterButton` invoking it) exists only on
the live capture screen; this is the only way the hardware `takePhoto`
operation can be invoked. -/
def shutterAvailable (status : CamPermStatus) (device : Option CameraDevice) : Bool :=
  match cameraScreen status device with
  | .capture _ => true
  | _ => false

/-- Torch toggle state. -/
inductive Torch
  | on | off
  deriving DecidableEq

/-- Active camera position. -/
inductive Facing
  | back | front
  deriving DecidableEq

/-- Platform.OS as far as `handleTakePhoto` distinguishes it. -/
inductive MobileOS
  | android | ios
  deriving DecidableEq

/-- The `CameraScreen` state touched by `handleTakePhoto`. -/
structure CaptureSession where
  photoUri : Option String
  torch : Torch
  facing : Facing
  deriving DecidableEq

/-- The hardware photo result: a file path. -/
structure Photo where
  path : String
  deriving DecidableEq

/-- A failure thrown by the hardware `takePhoto` call. -/
structure CaptureFailure where
  message : String
  deriving DecidableEq

/-- Outcome of `cameraRef.current?.takePhoto(...)`: a throw, `undefined`
(camera ref not bound), or a photo. -/
inductive CaptureOutcome
  | threw (e : CaptureFailure)
  | noPhoto
  | photo (p : Photo)
  deriving DecidableEq

/-- The uri built from a captured photo: Android gets a `file://` scheme
prepended, iOS uses the path as is. -/
def photoUriOf (os : MobileOS) (p : Photo) : String :=
  match os with
  | .android => "file://" ++ p.path
  | .ios => p.path

/-- Handler `handleTakePhoto` of `CameraScreen`: one `takePhoto` attempt per
invocation.  On a photo, store its uri; on `undefined`, return with no
change; on a throw, the `catch` block logs
`console.warn("Failed to take photo", error)` and nothing else — no retry,
no state change, no rethrow.  Result: (new session state, console calls). -/
def handleTakePhoto (os : MobileOS) (st : CaptureSession) (outcome : CaptureOutcome) :
    CaptureSession × List (List String) :=
  match outcome with
  | .threw e => (st, [["Failed to take photo", e.message]])
  | .noPhoto => (st, [])
  | .photo p => ({ st with photoUri := some (photoUriOf os p) }, [])

/-! ## Substring occurrence -/

/-- Does `needle` occur at the head of `hay`? -/
def startsWith : List Char → List Char → Bool
  | [], _ => true
  | _ :: _, [] => false
  | a :: as, b :: bs => a = b && startsWith as bs

/-- Does `needle` occur as a contiguous run anywhere inside `hay`? -/
def containsRun (needle : List Char) : List Char → Bool
  | [] => needle.isEmpty
  | c :: cs => startsWith needle (c :: cs) || containsRun needle cs

/-! ## Concrete transports used as claim inputs -/

/-- A transport delivering a body with no `responses` array. -/
def missingResponses : Transport := fun _ _ => HttpOutcome.ok { responses := none }

/-- A transport delivering a first response with every annotation category
absent. -/
def bareFirstResponse : Transport :=
  fun _ _ => HttpOutcome.ok
    { responses := some [{ labelAnns := none, objectAnns := none, textAnns := none }] }

/-- A transport delivering two label annotations and nothing else. -/
def labelledResponse : Transport :=
  fun _ _ => HttpOutcome.ok
    { responses := some
        [{ labelAnns := some [{ descr := "Cat", score := 9 }, { descr := "Pet", score := 8 }],
           objectAnns := none, textAnns := none }] }

/-- A transport whose failure value, like a real axios failure
(`error.config.url`), carries the request url — and with it the credential
that `visionUrl` embeds as a query-string parameter. -/
def urlEchoTransport : Transport :=
  fun url _ => HttpOutcome.fail
    { message := "AxiosError: Network Error; config.url: " ++ url }

/-! ## Claims about the reconciliation / display branch -/

/-- C1: For every `AnalysisResult` whose `objects` sequence is non-empty,
the reconciliation step selects objects mode and displays exactly the
`objects` items — no "no objects" message and no labels section — whatever
`labels` contains (including when it is also non-empty). -/
theorem objects_take_precedence (r : VisionResponse) (h : r.objects ≠ []) :
    objectRecognitionRender r =
      { shownItems := r.objects, noObjectsMsgShown := false, labelsSectionShown := false } ∧
    reconcileSpec r = { mode := .objects, items := r.objects } := by
  have hb : r.objects.isEmpty = false := by
    cases hr : r.objects with
    | nil => exact absurd hr h
    | cons a l => rfl
  constructor <;> simp [objectRecognitionRender, reconcileSpec, hb]

/-- Witness for `objects_take_precedence` at a concrete result whose
`labels` is also non-empty (the spec's Scenario B object plus labels). -/
theorem objects_take_precedence_check :
    objectRecognitionRender
        { labels := ["appliance", "kitchen"], confidence := [9, 8],
          objects := ["microwave"], text := none } =
      { shownItems := ["microwave"], noObjectsMsgShown := false,
        labelsSectionShown := false } :=
  (objects_take_precedence
    { labels := ["appliance", "kitchen"], confidence := [9, 8],
      objects := ["microwave"], text := none } (by decide)).1

/-- C2 counterexample: with `objects` empty and `labels` non-empty (labels
fallback mode) the "Could not recognize object" message is rendered, so it
is not rendered only in the both-empty case. -/
theorem noObjects_message_in_labels_mode :
    (objectRecognitionRender
        { labels := ["appliance"], confidence := [7], objects := [], text := none
        }).noObjectsMsgShown = true ∧
    (["appliance"] : List String) ≠ [] := by
  decide

/-- C2 (amended): when both `objects` and `labels` are empty, reconciliation
yields empty mode with zero items and the "no recognizable content" message
is shown; but the message is rendered whenever `objects` is empty — in the
labels fallback mode it appears above the labels section. -/
theorem empty_mode_and_message (r : VisionResponse) (h : r.objects = []) :
    (objectRecognitionRender r).noObjectsMsgShown = true ∧
    (r.labels = [] →
      objectRecognitionRender r =
        { shownItems := [], noObjectsMsgShown := true, labelsSectionShown := false } ∧
      reconcileSpec r = { mode := .empty, items := [] }) ∧
    (r.labels ≠ [] →
      objectRecognitionRender r =
        { shownItems := r.labels, noObjectsMsgShown := true, labelsSectionShown := true } ∧
      reconcileSpec r = { mode := .labels, items := r.labels }) := by
  refine ⟨?_, ?_, ?_⟩
  · simp [objectRecognitionRender, h]
  · intro hl
    constructor <;> simp [objectRecognitionRender, reconcileSpec, h, hl]
  · intro hl
    have hb : r.labels.isEmpty = false := by
      cases hr : r.labels with
      | nil => exact absurd hr hl
      | cons a l => rfl
    constructor <;> simp [objectRecognitionRender, reconcileSpec, h, hb]

/-- Witness for `empty_mode_and_message` at the both-empty result. -/
theorem empty_mode_and_message_check :
    reconcileSpec { labels := [], confidence := [], objects := [], text := none } =
      { mode := .empty, items := [] } :=
  ((empty_mode_and_message
      { labels := [], confidence := [], objects := [], text := none } rfl).2.1 rfl).2

/-! ## Claims about the permission gate and the capture screen -/

/-- C5: for every permission status other than `granted`, `CameraScreen`
renders the permission-request (gated) screen and the shutter — the only
path to the hardware `takePhoto` — is absent; and the shutter exists
exactly when the status is `granted` and a camera device resolves. -/
theorem permission_gates_capture (s : CamPermStatus) (d : Option CameraDevice)
    (h : s ≠ .granted) :
    cameraScreen s d = .permissionGate ∧ shutterAvailable s d = false ∧
    ∀ (s2 : CamPermStatus) (d2 : Option CameraDevice),
      shutterAvailable s2 d2 = true ↔ (s2 = .granted ∧ d2.isSome = true) := by
  refine ⟨?_, ?_, ?_⟩
  · simp [cameraScreen, h]
  · simp [shutterAvailable, cameraScreen, h]
  · intro s2 d2
    cases s2 <;> cases d2 <;> simp [shutterAvailable, cameraScreen]

/-- Witness for `permission_gates_capture`: with status `denied` and a
device present, the gated screen is rendered and the shutter is absent. -/
theorem permission_gates_capture_check :
    cameraScreen .denied (some { id := 0 }) = .permissionGate ∧
    shutterAvailable .denied (some { id := 0 }) = false :=
  ⟨(permission_gates_capture .denied (some { id := 0 }) (by decide)).1,
   (permission_gates_capture .denied (some { id := 0 }) (by decide)).2.1⟩

/-- C6: when the platform permission request throws, `request` resolves the
stored camera status to `denied` (fail-closed) after logging, and when it
returns a status the status is stored as is; in both cases the function
returns normally (no exception reaches the caller). -/
theorem request_fail_closed (e : PermFailure) (s : CamPermStatus) :
    usePermissionsRequest (.error e) =
      (.denied, [["Failed to request camera permission:", e.message]]) ∧
    usePermissionsRequest (.ok s) = (s, []) :=
  ⟨rfl, rfl⟩

/-- C7: a throwing `takePhoto` is caught inside `handleTakePhoto`; the only
effect is a single `console.warn` call, the session state (photoUri, torch,
facing) is unchanged, and nothing is rethrown (the result type is total). -/
theorem capture_failure_leaves_state (os : MobileOS) (st : CaptureSession)
    (e : CaptureFailure) :
    handleTakePhoto os st (.threw e) = (st, [["Failed to take photo", e.message]]) ∧
    (handleTakePhoto os st (.threw e)).1.photoUri = st.photoUri ∧
    (handleTakePhoto os st (.threw e)).1.torch = st.torch ∧
    (handleTakePhoto os st (.threw e)).1.facing = st.facing :=
  ⟨rfl, rfl, rfl, rfl⟩

/-! ## Claims about the vision service -/

/-- C3 counterexample: on a delivered body with no `responses` array,
`analyzeImage` does not return the empty result — it throws
`'Failed to analyze image'` to the caller. -/
theorem analyzeImage_malformed_throws :
    (analyzeImage "k" "img" missingResponses).result = .error "Failed to analyze image" ∧
    (analyzeImage "k" "img" missingResponses).result ≠
      .ok { labels := [], confidence := [], objects := [], text := none } := by
  constructor
  · rfl
  · intro h
    exact Except.noConfusion h

/-- C3 (amended): on a malformed response (no usable `responses[0]`),
`analyzeImage` logs once and throws the generic `'Failed to analyze image'`
error, while the standalone `recognizeObjectsFromImage` absorbs the same
malformed schema into the empty result without logging (it logs only when
the transport itself throws). -/
theorem malformed_schema_behavior (key img : String) (t u : Transport) (d e : RemoteData)
    (ht : t (visionUrl key) (stripImageHead img) = .ok d)
    (hd : d.responses.bind List.head? = none)
    (hu : u (visionUrl key) img = .ok e)
    (he : e.responses.bind List.head? = none) :
    (analyzeImage key img t).result = .error "Failed to analyze image" ∧
    (analyzeImage key img t).logs = [["Vision API Error:", jsUndefinedFieldMsg]] ∧
    (recognizeObjectsFromImage key img u).result = .ok { objects := [], labels := [] } ∧
    (recognizeObjectsFromImage key img u).logs = [] := by
  refine ⟨?_, ?_, ?_, ?_⟩ <;>
    simp [analyzeImage, recognizeObjectsFromImage, ht, hd, hu, he, jsMapOr]

/-- Witness for `malformed_schema_behavior` at the concrete
no-`responses` transport. -/
theorem malformed_schema_behavior_check :
    (analyzeImage "k" "img" missingResponses).logs =
      [["Vision API Error:", jsUndefinedFieldMsg]] :=
  (malformed_schema_behavior "k" "img" missingResponses missingResponses
    { responses := none } { responses := none } rfl rfl rfl rfl).2.1

/-- C4: when `responses[0]` exists, `analyzeImage` succeeds and maps each
absent annotation category to its empty default: missing
`labelAnnotations` gives empty `labels` and `confidence`, missing
`localizedObjectAnnotations` gives empty `objects`, missing
`textAnnotations` gives absent `text`. -/
theorem missing_categories_mapped_empty (key img : String) (t : Transport)
    (r : AnnotateResult) (rs : List AnnotateResult)
    (ht : t (visionUrl key) (stripImageHead img) = .ok { responses := some (r :: rs) }) :
    (analyzeImage key img t).result = .ok (normalizeFirst r) ∧
    (r.labelAnns = none → (normalizeFirst r).labels = [] ∧ (normalizeFirst r).confidence = []) ∧
    (r.objectAnns = none → (normalizeFirst r).objects = []) ∧
    (r.textAnns = none → (normalizeFirst r).text = none) := by
  refine ⟨?_, ?_, ?_, ?_⟩
  · simp [analyzeImage, ht]
  · intro h; simp [normalizeFirst, jsMapOr, h]
  · intro h; simp [normalizeFirst, jsMapOr, h]
  · intro h; simp [normalizeFirst, h]

/-- Witness for `missing_categories_mapped_empty`: all three categories
absent yields the all-empty `VisionResponse`. -/
theorem missing_categories_check :
    (analyzeImage "k" "img" bareFirstResponse).result =
      .ok { labels := [], confidence := [], objects := [], text := none } := by
  have h := missing_categories_mapped_empty "k" "img" bareFirstResponse
    { labelAnns := none, objectAnns := none, textAnns := none } [] rfl
  simpa [normalizeFirst, jsMapOr] using h.1

/-- C10: every successful `analyzeImage` call returns `labels` and
`confidence` of equal length, both mapped element-wise from the same
`labelAnnotations` list: `labels[i]` is the description and
`confidence[i]` the score of the i-th annotation. -/
theorem labels_confidence_parallel (key img : String) (t : Transport) (v : VisionResponse)
    (h : (analyzeImage key img t).result = .ok v) :
    v.labels.length = v.confidence.length ∧
    ∃ anns : List LabelAnn,
      v.labels = anns.map LabelAnn.descr ∧
      v.confidence = anns.map LabelAnn.score ∧
      ∀ i : Nat, v.labels[i]? = (anns[i]?).map LabelAnn.descr ∧
        v.confidence[i]? = (anns[i]?).map LabelAnn.score := by
  cases ht : t (visionUrl key) (stripImageHead img) with
  | fail e => simp [analyzeImage, ht] at h
  | ok d =>
    cases hd : d.responses.bind List.head? with
    | none => simp [analyzeImage, ht, hd] at h
    | some r =>
      have hv : v = normalizeFirst r := by
        simp [analyzeImage, ht, hd] at h
        exact h.symm
      subst hv
      cases hl : r.labelAnns with
      | none =>
        refine ⟨by simp [normalizeFirst, jsMapOr, hl], [], ?_, ?_, ?_⟩ <;>
          simp [normalizeFirst, jsMapOr, hl]
      | some xs =>
        refine ⟨by simp [normalizeFirst, jsMapOr, hl], xs, ?_, ?_, ?_⟩ <;>
          simp [normalizeFirst, jsMapOr, hl, List.getElem?_map]

/-- Witness for `labels_confidence_parallel` at a concrete two-label
response. -/
theorem labels_confidence_parallel_check :
    (["Cat", "Pet"] : List String).length = ([9, 8] : List Int).length := by
  have h := labels_confidence_parallel "k" "img" labelledResponse
    { labels := ["Cat", "Pet"], confidence := [9, 8], objects := [], text := none }
    (by rfl)
  exact h.1

/-- C9 counterexample: an axios-style transport failure carries the request
config url; the catch block logs the caught failure verbatim, so the
credential — a query-string parameter of that url — appears inside a
logged value. -/
theorem credential_in_log :
    ∃ entry ∈ (analyzeImage "SECRETKEY123" "img" urlEchoTransport).logs,
      ∃ v ∈ entry, containsRun "SECRETKEY123".data v.data = true := by
  decide

/-- C9 (amended): the code's own strings are fixed — every thrown error
message is `'Failed to analyze image'` and the log tags are constants — so
the credential can reach a logged value only through the caught transport
failure, which `analyzeImage` logs verbatim (and which, for axios
failures, carries the request url embedding the key). -/
theorem credential_confinement (key img v : String) (t : Transport)
    (entry : List String)
    (hentry : entry ∈ (analyzeImage key img t).logs) (hv : v ∈ entry) :
    (v = "Vision API Error:" ∨ v = jsUndefinedFieldMsg ∨
      ∃ e, t (visionUrl key) (stripImageHead img) = .fail e ∧ v = e.message) ∧
    ∀ m, (analyzeImage key img t).result = .error m → m = "Failed to analyze image" := by
  cases ht : t (visionUrl key) (stripImageHead img) with
  | fail e =>
    simp [analyzeImage, ht] at hentry
    subst hentry
    simp at hv
    refine ⟨?_, ?_⟩
    · rcases hv with h | h
      · exact Or.inl h
      · exact Or.inr (Or.inr ⟨e, rfl, h⟩)
    · intro m hm
      have hr : (analyzeImage key img t).result = .error "Failed to analyze image" := by
        simp [analyzeImage, ht]
      rw [hr] at hm
      exact (Except.error.inj hm).symm
  | ok d =>
    cases hd : d.responses.bind List.head? with
    | none =>
      simp [analyzeImage, ht, hd] at hentry
      subst hentry
      simp at hv
      refine ⟨?_, ?_⟩
      · rcases hv with h | h
        · exact Or.inl h
        · exact Or.inr (Or.inl h)
      · intro m hm
        have hr : (analyzeImage key img t).result = .error "Failed to analyze image" := by
          simp [analyzeImage, ht, hd]
        rw [hr] at hm
        exact (Except.error.inj hm).symm
    | some r =>
      simp [analyzeImage, ht, hd] at hentry

/-- Witness for `credential_confinement` at a concrete malformed-response
run: the log tag is one of the characterized values. -/
theorem credential_confinement_check :
    "Vision API Error:" = "Vision API Error:" ∨
    "Vision API Error:" = jsUndefinedFieldMsg ∨
    ∃ e, missingResponses (visionUrl "k") (stripImageHead "img") = .fail e ∧
      "Vision API Error:" = e.message :=
  (credential_confinement "k" "img" "Vision API Error:" missingResponses
    ["Vision API Error:", jsUndefinedFieldMsg] (by decide) (by decide)).1

/-! ## Data-URI head stripping (claim C8)

Lemmas characterizing `splitImageDataUri`, the model of the anchored regex
`^data:image\/[a-z]+;base64,` used by `VisionService.analyzeImage`. -/

/-- Soundness of the literal matcher: a successful `dropLit` means the
input was exactly the literal followed by the remainder. -/
theorem dropLit_sound (p : List Char) :
    ∀ s r : List Char, dropLit p s = some r → s = p ++ r := by
  induction p with
  | nil =>
    intro s r h
    simp [dropLit] at h
    simp [h]
  | cons q ps ih =>
    intro s r h
    cases s with
    | nil => simp [dropLit] at h
    | cons c cs =>
      simp only [dropLit] at h
      by_cases hc : c = q
      · rw [if_pos hc] at h
        subst hc
        simp [ih cs r h]
      · rw [if_neg hc] at h
        exact absurd h (by simp)

/-- Completeness of the literal matcher. -/
theorem dropLit_complete (p : List Char) : ∀ r : List Char, dropLit p (p ++ r) = some r := by
  induction p with
  | nil => intro r; rfl
  | cons q ps ih => intro r; simp [dropLit, ih]

/-- Behavior of `takeWhile`/`dropWhile` on a run of satisfying characters followed by a
stopper: the run is taken whole and the rest left whole. -/
theorem takeWhile_stops (p : Char → Bool) (c : Char) (hc : p c = false) :
    ∀ l1 l2 : List Char, l1.all p = true →
      (l1 ++ c :: l2).takeWhile p = l1 ∧ (l1 ++ c :: l2).dropWhile p = c :: l2 := by
  intro l1
  induction l1 with
  | nil =>
    intro l2 _
    constructor <;> simp [List.takeWhile, List.dropWhile, hc]
  | cons a as ih =>
    intro l2 h
    simp only [List.all_cons, Bool.and_eq_true] at h
    obtain ⟨ha, has⟩ := h
    have hrec := ih l2 has
    constructor <;> simp [List.takeWhile, List.dropWhile, ha, hrec.1, hrec.2]

/-- The characters kept by `takeWhile` all satisfy the predicate. -/
theorem all_takeWhile_self (p : Char → Bool) : ∀ l : List Char, (l.takeWhile p).all p = true := by
  intro l
  induction l with
  | nil => rfl
  | cons a as ih =>
    by_cases h : p a
    · simp [List.takeWhile, h, ih]
    · simp [List.takeWhile, h]

/-- Soundness of the regex matcher: a match decomposes the input into the
fixed head, a non-empty all-lowercase subtype, the `;base64,` separator
and the payload. -/
theorem splitImageDataUri_sound (s sub payload : List Char)
    (h : splitImageDataUri s = some (sub, payload)) :
    s = "data:image/".data ++ (sub ++ (";base64,".data ++ payload)) ∧
    sub ≠ [] ∧ sub.all isLowerAlpha = true := by
  unfold splitImageDataUri at h
  cases hm : dropLit "data:image/".data s with
  | none => rw [hm] at h; exact absurd h (by simp)
  | some rest =>
    rw [hm] at h
    simp only at h
    by_cases he : (rest.takeWhile isLowerAlpha).isEmpty
    · rw [if_pos he] at h; exact absurd h (by simp)
    · rw [if_neg he] at h
      cases hb : dropLit ";base64,".data (rest.dropWhile isLowerAlpha) with
      | none => rw [hb] at h; exact absurd h (by simp)
      | some pay =>
        rw [hb] at h
        simp only [Option.some.injEq, Prod.mk.injEq] at h
        obtain ⟨hsub, hpay⟩ := h
        have hs : s = "data:image/".data ++ rest := dropLit_sound _ _ _ hm
        have hrest : rest.takeWhile isLowerAlpha ++ rest.dropWhile isLowerAlpha = rest :=
          List.takeWhile_append_dropWhile isLowerAlpha rest
        have hdrop : rest.dropWhile isLowerAlpha = ";base64,".data ++ pay :=
          dropLit_sound _ _ _ hb
        subst hsub hpay
        refine ⟨?_, ?_, all_takeWhile_self isLowerAlpha rest⟩
        · rw [hs]
          congr 1
          conv_lhs => rw [← hrest]
          rw [hdrop]
        · intro hnil
          rw [hnil] at he
          exact he rfl

/-- Reduction of the regex matcher once the fixed head has been consumed. -/
theorem splitImageDataUri_eq (s rest : List Char)
    (h : dropLit "data:image/".data s = some rest) :
    splitImageDataUri s =
      (if (rest.takeWhile isLowerAlpha).isEmpty then none
       else
        match dropLit ";base64,".data (rest.dropWhile isLowerAlpha) with
        | none => none
        | some payload => some (rest.takeWhile isLowerAlpha, payload)) := by
  unfold splitImageDataUri
  rw [h]

/-- Completeness of the regex matcher on a well-formed image data URI. -/
theorem splitImageDataUri_complete (m r : List Char)
    (h1 : m ≠ []) (h2 : m.all isLowerAlpha = true) :
    splitImageDataUri ("data:image/".data ++ (m ++ (";base64,".data ++ r))) = some (m, r) := by
  have hstop := takeWhile_stops isLowerAlpha ';' (by decide) m ("base64,".data ++ r) h2
  have h3 : (m ++ (";base64,".data ++ r)).takeWhile isLowerAlpha = m := hstop.1
  have h4 : (m ++ (";base64,".data ++ r)).dropWhile isLowerAlpha = ";base64,".data ++ r :=
    hstop.2
  have hne : m.isEmpty = false := by
    cases m with
    | nil => exact absurd rfl h1
    | cons a l => rfl
  rw [splitImageDataUri_eq ("data:image/".data ++ (m ++ (";base64,".data ++ r)))
        (m ++ (";base64,".data ++ r)) (dropLit_complete _ _), h3, h4, hne]
  rw [if_neg (fun hft => Bool.noConfusion hft)]
  rw [dropLit_complete ";base64,".data r]

/-- Appending strings acts as list append on the underlying characters. -/
theorem data_append_eq (a b : String) : (a ++ b).data = a.data ++ b.data := rfl

/-- Two strings with the same characters are equal. -/
theorem string_data_eq {a b : String} (h : a.data = b.data) : a = b := by
  cases a with
  | mk l1 =>
    cases b with
    | mk l2 => cases h; rfl

/-- Requests issued: `analyzeImage` issues exactly one request, to `visionUrl`, with the
head-stripped input as body, whatever the transport then does. -/
theorem analyzeImage_requests (key img : String) (t : Transport) :
    (analyzeImage key img t).requests = [(visionUrl key, stripImageHead img)] := by
  cases ht : t (visionUrl key) (stripImageHead img) with
  | fail e => simp [analyzeImage, ht]
  | ok d =>
    cases hd : d.responses.bind List.head? with
    | none => simp [analyzeImage, ht, hd]
    | some r => simp [analyzeImage, ht, hd]

/-- C8 counterexample: a data URI with a non-image MIME type keeps its
head — the regex strips only `data:image/<lowercase>;base64,` — so the
payload sent to the endpoint is not the head-stripped base64 content. -/
theorem nonImage_mime_not_stripped :
    stripImageHead "data:application/pdf;base64,QUJD" = "data:application/pdf;base64,QUJD" ∧
    (analyzeImage "k" "data:application/pdf;base64,QUJD" missingResponses).requests =
      [(visionUrl "k", "data:application/pdf;base64,QUJD")] ∧
    "data:application/pdf;base64,QUJD" ≠ "QUJD" := by
  refine ⟨by decide, ?_, by decide⟩
  rfl

/-- C8 (amended): the payload `analyzeImage` sends is the input with a
`data:image/<subtype>;base64,` head removed when the subtype is a
non-empty run of lowercase ascii letters (the regex
`^data:image\/[a-z]+;base64,`); an input not of that exact shape —
including data URIs of any other MIME type — is sent unchanged. -/
theorem image_head_stripping (key mime rest : String) (t : Transport)
    (h1 : mime ≠ "") (h2 : mime.data.all isLowerAlpha = true) :
    (analyzeImage key ("data:image/" ++ mime ++ (";base64," ++ rest)) t).requests =
      [(visionUrl key, rest)] ∧
    ∀ s : String,
      (∀ m r : String, m ≠ "" → m.data.all isLowerAlpha = true →
        s ≠ "data:image/" ++ m ++ (";base64," ++ r)) →
      (analyzeImage key s t).requests = [(visionUrl key, s)] := by
  constructor
  · have hm1 : mime.data ≠ [] := by
      intro hnil
      exact h1 (string_data_eq hnil)
    have hdata : ("data:image/" ++ mime ++ (";base64," ++ rest)).data =
        "data:image/".data ++ (mime.data ++ (";base64,".data ++ rest.data)) := by
      simp [data_append_eq, List.append_assoc]
    have hstrip : stripImageHead ("data:image/" ++ mime ++ (";base64," ++ rest)) = rest := by
      unfold stripImageHead
      rw [hdata, splitImageDataUri_complete mime.data rest.data hm1 h2]
    rw [analyzeImage_requests, hstrip]
  · intro s hno
    have hstrip : stripImageHead s = s := by
      unfold stripImageHead
      cases hsp : splitImageDataUri s.data with
      | none => rfl
      | some pr =>
        obtain ⟨sub, payload⟩ := pr
        obtain ⟨hdec, hne, hall⟩ := splitImageDataUri_sound s.data sub payload hsp
        have hs : s = "data:image/" ++ String.mk sub ++ (";base64," ++ String.mk payload) := by
          apply string_data_eq
          rw [hdec]
          simp [data_append_eq, List.append_assoc]
        have hmne : String.mk sub ≠ "" := by
          intro hmk
          exact hne (congrArg String.data hmk)
        exact absurd hs (hno (String.mk sub) (String.mk payload) hmne hall)
    rw [analyzeImage_requests, hstrip]

/-- Witness for `image_head_stripping` with the `jpeg` subtype. -/
theorem image_head_stripping_check :
    (analyzeImage "k" ("data:image/" ++ "jpeg" ++ (";base64," ++ "QUJD"))
        missingResponses).requests = [(visionUrl "k", "QUJD")] :=
  (image_head_stripping "k" "jpeg" "QUJD" missingResponses (by decide) (by decide)).1

end Finderly
